import Mathlib

set_option maxHeartbeats 1000000
set_option linter.unusedVariables false

/-!
Verification of the request-coordination layer of the compliance chat bot
(`app/backend/main.py`): the `/chat` submission handler (`chat_with_bot`),
the polling endpoint (`get_task_status`), the background worker
(`generate_ai_response_task`), the answer-store lookup
(`check_existing_query`) and the request fingerprint
(`_generate_request_hash`).  The two module-level dictionaries
`active_requests` and `background_task_results` are modelled as
association lists inside a `SysState`; wall-clock reads, the md5 digest,
the Python string hash and the collaborator responses (ChromaDB, the
generation model) are explicit inputs.
-/

namespace ChatBot

/-! ### Python dictionaries as association lists -/

/-- Lookup in a Python dictionary (`d[k]` / `k in d`). -/
def dfind {α : Type} : List (String × α) → String → Option α
  | [], _ => none
  | (k', v) :: rest, k => if k' = k then some v else dfind rest k

/-- Deletion (`del d[k]`). -/
def derase {α : Type} (d : List (String × α)) (k : String) : List (String × α) :=
  d.filter (fun p => decide (p.1 ≠ k))

/-- Assignment (`d[k] = v`). -/
def dinsert {α : Type} (d : List (String × α)) (k : String) (v : α) : List (String × α) :=
  derase d k ++ [(k, v)]


/-! ### Data model

`QueryResponse`, the cache entries of `active_requests`, the task records
of `background_task_results`, and the overall mutable module state. -/

/-- Response body shape of `/chat` and `/task_status` (`QueryResponse`). -/
structure QueryResponse where
  response : String
  module : Option String
  source : Option String
  task_id : Option String
deriving DecidableEq

/-- One value of the `active_requests` dictionary. -/
structure CacheEntry where
  response : QueryResponse
  completed : Bool
  timestamp : ℤ
deriving DecidableEq

/-- One value of the `background_task_results` dictionary. -/
structure TaskRecord where
  response : String
  module : Option String
  source : String
  completed : Bool
  timestamp : ℤ
deriving DecidableEq

/-- The module-level mutable state of `app/backend/main.py`. -/
structure SysState where
  active_requests : List (String × CacheEntry)
  background_task_results : List (String × TaskRecord)
deriving DecidableEq

/-- Python truthiness of an `Optional[str]`: `None` and `""` are falsy. -/
def strTruthy : Option String → Bool
  | none => false
  | some s => !s.isEmpty

/-! ### Fingerprint (`_generate_request_hash`) -/

/-- The Python expression `module or 'none'`. -/
def moduleOrNone : Option String → String
  | none => "none"
  | some s => if s.isEmpty then "none" else s

/-- The pre-hash string `f"{username}:{query}:{module or 'none'}"`. -/
def request_string (username query : String) (module : Option String) : String :=
  username ++ ":" ++ query ++ ":" ++ moduleOrNone module

/-- `_generate_request_hash`.  The md5 hex digest is an opaque collaborator,
passed in as `md5hex`. -/
def generate_request_hash (md5hex : String → String) (username query : String)
    (module : Option String) : String :=
  md5hex (request_string username query module)

/-! ### Decimal rendering and task ids

`task_id = f"task_{int(time.time() * 1000)}_{hash(request_hash)}"`.
Integer-to-string rendering is embedded by a fuel-structured decimal
printer so that it evaluates in the kernel. -/

/-- Decimal digits of `n`, most significant first (`fuel ≥ n` suffices). -/
def natDigitsAux : ℕ → ℕ → List Char
  | 0, _ => []
  | fuel + 1, n =>
      if n = 0 then [] else natDigitsAux fuel (n / 10) ++ [Nat.digitChar (n % 10)]

/-- Decimal digits of a natural number, most significant first. -/
def natDigs (n : ℕ) : List Char := natDigitsAux n n

/-- Python `str` of a non-negative integer. -/
def natToStr (n : ℕ) : String := if n = 0 then "0" else String.mk (natDigs n)

/-- Python `str` of an integer. -/
def intToStr (i : ℤ) : String :=
  if i < 0 then "-" ++ natToStr i.natAbs else natToStr i.natAbs

/-- The task id `f"task_{int(time.time() * 1000)}_{hash(request_hash)}"`.
`pyHash` is the process-level Python string hash (opaque, seed-dependent),
and `nowMillis` is `int(time.time() * 1000)` at submission time. -/
def task_id_for (pyHash : String → ℤ) (nowMillis : ℕ) (request_hash : String) : String :=
  "task_" ++ natToStr nowMillis ++ "_" ++ intToStr (pyHash request_hash)

/-! ### AnswerStore lookup (`check_existing_query`)

The ChromaDB query result is the collaborator's reply: a dictionary with
`documents`, and optionally `distances` and `metadatas` keys.  A raised
exception anywhere inside the function's `try` block is caught and turns
into `None`; it is modelled by the `Except` error case and by the `none`
results of the partial indexing steps. -/

/-- A metadata dictionary, of which only `metadata.get('module')` is read
(`none` covers both an absent key and an explicit null). -/
structure ChromaMeta where
  module : Option String
deriving DecidableEq

/-- A ChromaDB `query` reply: nested lists of documents, distances and
metadatas; `distances`/`metadatas` are `none` when the key is absent. -/
structure ChromaResult where
  documents : List (List String)
  distances : Option (List (List ℚ))
  metadatas : Option (List (List ChromaMeta))
deriving DecidableEq

/-- Outcome of the `chroma_db.query_collection` call: `Except.error` models
a raised exception, `Except.ok none` a falsy result object. -/
abbrev ChromaLookup := Except Unit (Option ChromaResult)

/-- The Python `document.split('\n', 1)`: the part before the first newline,
and the remainder when a newline exists. -/
def split_once_newline (s : String) : String × Option String :=
  match s.data.dropWhile (fun c => decide (c ≠ '\n')) with
  | [] => (s, none)
  | _ :: rest =>
      (String.mk (s.data.takeWhile (fun c => decide (c ≠ '\n'))), some (String.mk rest))

/-- The value returned by `check_existing_query` on a hit. -/
structure StoredAnswer where
  response : String
  query : String
deriving DecidableEq

/-- `check_existing_query(query, module)`: decides whether the nearest
stored answer is reused.  The raw query text only feeds the collaborator
call, which is passed in already-answered as `dbLookup`. -/
def check_existing_query (dbLookup : ChromaLookup) (module : Option String) :
    Option StoredAnswer :=
  match dbLookup with
  | .error _ => none
  | .ok none => none
  | .ok (some results) =>
    match results.documents with
    | [] => none
    | docs0 :: _ =>
      match docs0 with
      | [] => none
      | document :: _ =>
        let sim? : Option ℚ :=
          match results.distances with
          | none => some 1
          | some dss =>
            match dss with
            | [] => none
            | ds0 :: _ =>
              match ds0 with
              | [] => none
              | d :: _ => some d
        match sim? with
        | none => none
        | some similarity_score =>
          if similarity_score < mkRat 1 4 then
            match (split_once_newline document).2 with
            | none => none
            | some response =>
              if strTruthy module then
                let meta? : Option ChromaMeta :=
                  match results.metadatas with
                  | none => some ⟨none⟩
                  | some mss =>
                    match mss with
                    | [] => none
                    | ms0 :: _ =>
                      match ms0 with
                      | [] => some ⟨none⟩
                      | m :: _ => some m
                match meta? with
                | none => none
                | some metadata =>
                  match metadata.module with
                  | none => some ⟨response, (split_once_newline document).1⟩
                  | some stored_module =>
                    if stored_module.isEmpty then
                      some ⟨response, (split_once_newline document).1⟩
                    else if stored_module ≠ module.getD "" then none
                    else some ⟨response, (split_once_newline document).1⟩
              else some ⟨response, (split_once_newline document).1⟩
          else none

/-- A candidate answer as the spec's data model describes it; used to state
the acceptance rule.  `toLookup` renders it as the collaborator reply the
code actually consumes, with the stored document in its
`query + "\n" + response` format. -/
structure CandidateAnswer where
  answerText : String
  originalQuery : String
  distanceScore : ℚ
  moduleTag : Option String

/-- The ChromaDB reply carrying exactly one candidate answer. -/
def CandidateAnswer.toLookup (c : CandidateAnswer) : ChromaLookup :=
  .ok (some ⟨[[c.originalQuery ++ "\n" ++ c.answerText]],
    some [[c.distanceScore]], some [[⟨c.moduleTag⟩]]⟩)

/-! ### The submission handler (`chat_with_bot`) -/

/-- The validated request body (`QueryRequest`). -/
structure QueryRequest where
  query : String
  module : Option String
deriving DecidableEq

/-- Pydantic validation of the `/chat` body: `query: str` is required but
unconstrained, `module` is optional.  A missing `query` field is rejected
with a 422 before the handler runs. -/
def validate_query_request (query : Option String) (module : Option String) :
    Except ℕ QueryRequest :=
  match query with
  | none => .error 422
  | some q => .ok ⟨q, module⟩

/-- A background task scheduled via `background_tasks.add_task`. -/
structure TaskSpec where
  task_id : String
  query : String
  context : List String
  module : Option String
  username : String
deriving DecidableEq

/-- What the `/chat` handler hands back to its caller. -/
inductive ChatOutcome where
  | cached (r : QueryResponse)
  | dbHit (r : QueryResponse)
  | processing (r : QueryResponse)
  | httpError (code : ℕ)
deriving DecidableEq

/-- `true` exactly on the synchronous database-hit reply. -/
def answeredFromDatabase : ChatOutcome → Bool
  | .dbHit _ => true
  | _ => false

/-- Result of one `/chat` run: the response, the updated module state and
the scheduled background tasks. -/
structure ChatResult where
  outcome : ChatOutcome
  state : SysState
  scheduled : List TaskSpec
deriving DecidableEq

/-- The ambient inputs of one `/chat` run: the digest and string-hash
functions, the two clock reads, and the two ChromaDB replies (the
`user_queries` similarity lookup and the module-collection context
lookup). -/
structure ChatEnv where
  md5hex : String → String
  pyHash : String → ℤ
  now : ℤ
  nowMillis : ℕ
  dbLookup : ChromaLookup
  ctxLookup : ChromaLookup

/-- The context block of `chat_with_bot` (lines 134-139): `none` models the
collection query raising, which the handler converts into a 500 reply. -/
def contextOf : ChromaLookup → Option (List String)
  | .error _ => none
  | .ok none => some []
  | .ok (some r) =>
    match r.documents with
    | [] => some []
    | d0 :: _ => some d0

/-- `chat_with_bot` (the `/chat` handler).  It reads and writes
`active_requests` and never touches `background_task_results`. -/
def chat_with_bot (env : ChatEnv) (username : String) (req : QueryRequest)
    (s : SysState) : ChatResult :=
  let request_hash := generate_request_hash env.md5hex username req.query req.module
  let proceed : SysState → ChatResult := fun s1 =>
    match check_existing_query env.dbLookup req.module with
    | some existing =>
      let response_data : QueryResponse :=
        ⟨existing.response, req.module, some "database", none⟩
      let newActive := dinsert s1.active_requests request_hash ⟨response_data, true, env.now⟩
      { outcome := .dbHit response_data,
        state := { s1 with active_requests := newActive },
        scheduled := [] }
    | none =>
      let tid := task_id_for env.pyHash env.nowMillis request_hash
      let ctx? : Option (List String) :=
        if strTruthy req.module then contextOf env.ctxLookup else some []
      match ctx? with
      | none => { outcome := .httpError 500, state := s1, scheduled := [] }
      | some context =>
        { outcome := .processing
            ⟨"I'm processing your question. Please wait a moment...",
              req.module, some "processing", some tid⟩,
          state := s1,
          scheduled := [⟨tid, req.query, context, req.module, username⟩] }
  match dfind s.active_requests request_hash with
  | some cached_result =>
      if cached_result.completed then
        if env.now - cached_result.timestamp > 300 then
          proceed { s with active_requests := derase s.active_requests request_hash }
        else
          { outcome := .cached cached_result.response, state := s, scheduled := [] }
      else proceed s
  | none => proceed s

/-! ### The polling endpoint (`get_task_status`) -/

/-- Reply of `/task_status/{task_id}`: a body, or the 404 `HTTPException`. -/
inductive PollResult where
  | ok (r : QueryResponse)
  | notFound
deriving DecidableEq

/-- `get_task_status`: reads `background_task_results`, lazily deleting a
completed record read more than 300s after its timestamp — but still
returning its payload on that read. -/
def get_task_status (task_id : String) (now : ℤ) (s : SysState) :
    PollResult × SysState :=
  match dfind s.background_task_results task_id with
  | none => (.notFound, s)
  | some result =>
      if result.completed then
        let response : QueryResponse :=
          ⟨result.response, result.module, some result.source, none⟩
        if now - result.timestamp > 300 then
          (.ok response,
            { s with background_task_results :=
                derase s.background_task_results task_id })
        else (.ok response, s)
      else
        (.ok ⟨"Still processing your request...", none, some "processing", some task_id⟩, s)

/-! ### The background worker (`generate_ai_response_task`) -/

/-- Outcome of `asyncio.wait_for(ai_model.generate_response(...), 60.0)`:
a returned `{success, response}` dictionary, a timeout, or some other
raised exception. -/
inductive GenOutcome where
  | returns (success : Bool) (text : String)
  | timeout
  | raises (msg : String)
deriving DecidableEq

/-- Observable steps of one worker run, in execution order: the final
answer text exists; the awaited `store_chat_history` persistence returned;
the completed record was written into `background_task_results`. -/
inductive WorkerEvent where
  | generated
  | persisted
  | completedWrite
deriving DecidableEq

/-- Result of one worker run: the new module state plus the ordered trace
of its observable steps. -/
structure WorkerRun where
  state : SysState
  events : List WorkerEvent
deriving DecidableEq

/-- The fallback text synthesized when the model call exceeds 60 seconds. -/
def fallback_text (query : String) : String :=
  "I apologize for the delay in responding to your question about '" ++ query ++
    "'. Our AI service is experiencing high load at the moment. Please try again in a few moments, or consider rephrasing your question to be more specific."

/-- `generate_ai_response_task`.  `persist` is the outcome of the awaited
`store_chat_history` call (`Except.error e` models it raising, which the
outer handler converts into an error record).  Every exit path writes a
record with `completed := true`; the success path awaits persistence
before that write. -/
def generate_ai_response_task (task_id query : String) (module : Option String)
    (username : String) (outcome : GenOutcome) (persist : Except String Unit)
    (now : ℤ) (s : SysState) : WorkerRun :=
  let complete : TaskRecord → List WorkerEvent → WorkerRun := fun rec evs =>
    let newRegistry := dinsert s.background_task_results task_id rec
    { state := { s with background_task_results := newRegistry },
      events := evs }
  let afterGen : Bool → String → WorkerRun := fun success text =>
    if success then
      match persist with
      | .ok _ =>
          complete ⟨text, module, "deepseek", true, now⟩
            [.generated, .persisted, .completedWrite]
      | .error e =>
          complete ⟨"Error processing request: " ++ e, module, "error", true, now⟩
            [.generated, .completedWrite]
    else
      complete ⟨"Failed to generate response", module, "error", true, now⟩
        [.generated, .completedWrite]
  match outcome with
  | .returns success text => afterGen success text
  | .timeout => afterGen true (fallback_text query)
  | .raises msg =>
      complete ⟨"Error processing request: " ++ msg, module, "error", true, now⟩
        [.completedWrite]

/-- The registry invariant of the implicit claim: every stored record is
already completed. -/
def allCompleted (d : List (String × TaskRecord)) : Prop :=
  ∀ k rec, dfind d k = some rec → rec.completed = true

/-- Position of the first occurrence of an event in a trace. -/
def eventPos (e : WorkerEvent) : List WorkerEvent → ℕ
  | [] => 0
  | x :: rest => if x = e then 0 else eventPos e rest + 1

/-! ### Concrete instances used in the closed runs -/

/-- A concrete environment: identity digest, constant Python string hash,
clock at 1s / 1000ms, and empty collaborator replies. -/
def envA : ChatEnv :=
  { md5hex := fun st => st, pyHash := fun _ => 0, now := 1, nowMillis := 1000,
    dbLookup := .ok none, ctxLookup := .ok none }

/-- The same environment read 300 seconds later. -/
def envB : ChatEnv := { envA with now := 301 }

/-- A completed task record created at time 0. -/
def recB : TaskRecord := ⟨"stored answer", some "1", "deepseek", true, 0⟩

/-- A registry holding only `recB` under id `"t1"`. -/
def regB : List (String × TaskRecord) := [("t1", recB)]

/-- A stale completed in-flight entry for the fingerprint `"u:q:none"`. -/
def staleEntry : CacheEntry := ⟨⟨"old answer", none, some "database", none⟩, true, 0⟩

/-- An `active_requests` cache holding only `staleEntry`. -/
def activeB : List (String × CacheEntry) := [("u:q:none", staleEntry)]

/-- First of two identical submissions inside the same millisecond. -/
def firstRun : ChatResult := chat_with_bot envA "u" ⟨"q", none⟩ ⟨[], []⟩

/-- The second identical submission, run on the state the first one left. -/
def secondRun : ChatResult := chat_with_bot envA "u" ⟨"q", none⟩ firstRun.state

/-- A candidate at distance 0.1 whose tag matches the request module. -/
def nearCandidate : CandidateAnswer := ⟨"stored reply", "stored query", mkRat 1 10, some "1"⟩

/-- A candidate at distance 0.5 whose tag matches the request module. -/
def farCandidate : CandidateAnswer := ⟨"stored reply", "stored query", mkRat 1 2, some "1"⟩

/-- The environment whose AnswerStore returns `nearCandidate`. -/
def envNear : ChatEnv := { envA with dbLookup := nearCandidate.toLookup }

/-- The environment whose AnswerStore returns `farCandidate`. -/
def envFar : ChatEnv := { envA with dbLookup := farCandidate.toLookup }

/-- A concrete worker run on the success path. -/
def runC5 : WorkerRun :=
  generate_ai_response_task "t1" "q" none "u" (.returns true "answer") (.ok ()) 0 ⟨[], []⟩

theorem dfind_append {α : Type} (d1 d2 : List (String × α)) (k : String) :
    dfind (d1 ++ d2) k = match dfind d1 k with
      | some v => some v
      | none => dfind d2 k := by
  induction d1 with
  | nil => rfl
  | cons p rest ih =>
      obtain ⟨k', v⟩ := p
      by_cases h : k' = k <;> simp [dfind, h, ih]

theorem derase_cons {α : Type} (k₀ : String) (v : α) (rest : List (String × α)) (k : String) :
    derase ((k₀, v) :: rest) k =
      if k₀ = k then derase rest k else (k₀, v) :: derase rest k := by
  by_cases h : k₀ = k <;> simp [derase, h]

theorem dfind_derase_self {α : Type} (d : List (String × α)) (k : String) :
    dfind (derase d k) k = none := by
  induction d with
  | nil => rfl
  | cons p rest ih =>
      obtain ⟨k₀, v⟩ := p
      rw [derase_cons]
      by_cases hk : k₀ = k
      · simpa [hk] using ih
      · simp [dfind, hk, ih]

theorem dfind_derase_ne {α : Type} (d : List (String × α)) (k k' : String) (h : k' ≠ k) :
    dfind (derase d k) k' = dfind d k' := by
  induction d with
  | nil => rfl
  | cons p rest ih =>
      obtain ⟨k₀, v⟩ := p
      rw [derase_cons]
      by_cases hk : k₀ = k
      · subst hk
        have hne : ¬ (k₀ = k') := fun hh => h hh.symm
        simp [dfind, hne, ih]
      · rw [if_neg hk]
        by_cases hk' : k₀ = k' <;> simp [dfind, hk', ih]

theorem dfind_dinsert_self {α : Type} (d : List (String × α)) (k : String) (v : α) :
    dfind (dinsert d k v) k = some v := by
  simp [dinsert, dfind_append, dfind_derase_self, dfind]

theorem dfind_dinsert_ne {α : Type} (d : List (String × α)) (k k' : String) (v : α)
    (h : k' ≠ k) : dfind (dinsert d k v) k' = dfind d k' := by
  simp only [dinsert, dfind_append, dfind_derase_ne d k k' h]
  cases hf : dfind d k' <;> simp [dfind, (Ne.symm h : k ≠ k')]

/-! ### Structural lemmas about the worker and the handler -/

/-- Every worker run rewrites exactly its own task id with an
already-completed record and leaves the rest of the state alone. -/
theorem worker_writes (task_id query : String) (module : Option String)
    (username : String) (outcome : GenOutcome) (persist : Except String Unit)
    (now : ℤ) (s : SysState) :
    ∃ rec : TaskRecord, rec.completed = true ∧
      (generate_ai_response_task task_id query module username outcome persist now s).state =
        { s with background_task_results := dinsert s.background_task_results task_id rec } := by
  cases outcome with
  | returns success text =>
      cases success with
      | false => exact ⟨⟨"Failed to generate response", module, "error", true, now⟩, rfl, rfl⟩
      | true =>
          cases persist with
          | ok u => exact ⟨⟨text, module, "deepseek", true, now⟩, rfl, rfl⟩
          | error e =>
              exact ⟨⟨"Error processing request: " ++ e, module, "error", true, now⟩, rfl, rfl⟩
  | timeout =>
      cases persist with
      | ok u => exact ⟨⟨fallback_text query, module, "deepseek", true, now⟩, rfl, rfl⟩
      | error e =>
          exact ⟨⟨"Error processing request: " ++ e, module, "error", true, now⟩, rfl, rfl⟩
  | raises msg =>
      exact ⟨⟨"Error processing request: " ++ msg, module, "error", true, now⟩, rfl, rfl⟩

/-- Inserting a completed record preserves the registry invariant. -/
theorem allCompleted_dinsert (d : List (String × TaskRecord)) (k : String)
    (rec : TaskRecord) (hd : allCompleted d) (hrec : rec.completed = true) :
    allCompleted (dinsert d k rec) := by
  intro k' rec' h'
  by_cases hk : k' = k
  · subst hk
    rw [dfind_dinsert_self] at h'
    cases h'
    exact hrec
  · rw [dfind_dinsert_ne _ _ _ _ hk] at h'
    exact hd _ _ h'

/-- Deleting a record preserves the registry invariant. -/
theorem allCompleted_derase (d : List (String × TaskRecord)) (k : String)
    (hd : allCompleted d) : allCompleted (derase d k) := by
  intro k' rec' h'
  by_cases hk : k' = k
  · subst hk
    rw [dfind_derase_self] at h'
    cases h'
  · rw [dfind_derase_ne _ _ _ hk] at h'
    exact hd _ _ h'

/-- The `/chat` handler never touches `background_task_results`. -/
theorem chat_registry_frame (env : ChatEnv) (username : String) (req : QueryRequest)
    (s : SysState) :
    (chat_with_bot env username req s).state.background_task_results =
      s.background_task_results := by
  dsimp only [chat_with_bot]
  repeat' split
  all_goals rfl

/-- A `/chat` run that scheduled background work left `active_requests`
alone, except possibly for the lazy eviction of this fingerprint's expired
entry during the dedup check. -/
theorem chat_sched_active (env : ChatEnv) (username : String) (req : QueryRequest)
    (s : SysState) :
    (chat_with_bot env username req s).scheduled = [] ∨
    (chat_with_bot env username req s).state.active_requests = s.active_requests ∨
    (chat_with_bot env username req s).state.active_requests =
      derase s.active_requests
        (generate_request_hash env.md5hex username req.query req.module) := by
  dsimp only [chat_with_bot]
  repeat' split
  all_goals simp

/-- A `/chat` run never changes `active_requests` at any key other than its
own fingerprint. -/
theorem chat_dfind_other (env : ChatEnv) (username : String) (req : QueryRequest)
    (s : SysState) (k : String)
    (hk : k ≠ generate_request_hash env.md5hex username req.query req.module) :
    dfind (chat_with_bot env username req s).state.active_requests k =
      dfind s.active_requests k := by
  dsimp only [chat_with_bot]
  repeat' split
  all_goals simp [dfind_dinsert_ne _ _ _ _ hk, dfind_derase_ne _ _ _ hk]

/-- A stored document of the form `query + "\n" + response` always splits
into two parts. -/
theorem split_concat_isSome (q a : String) :
    ((split_once_newline (q ++ "\n" ++ a)).2).isSome = true := by
  unfold split_once_newline
  cases hdrop : (q ++ "\n" ++ a).data.dropWhile (fun c => decide (c ≠ '\n')) with
  | nil =>
      exfalso
      have hall := List.dropWhile_eq_nil_iff.mp hdrop
      have hmem : '\n' ∈ (q ++ "\n" ++ a).data := by
        simp [String.data_append]
      have := hall _ hmem
      simp at this
  | cons c rest => simp [hdrop]

/-- The acceptance rule of `check_existing_query` on a well-formed stored
candidate: reuse exactly when the distance is below 0.25 and the module
filter passes (a falsy request module, a falsy stored module, or equal
modules). -/
theorem candidate_accept_iff (c : CandidateAnswer) (module : Option String) :
    (check_existing_query c.toLookup module).isSome = true ↔
      (c.distanceScore < mkRat 1 4 ∧
        (strTruthy module = false ∨ strTruthy c.moduleTag = false ∨
          c.moduleTag = module)) := by
  obtain ⟨a, q, d, tag⟩ := c
  obtain ⟨resp, hresp⟩ := Option.isSome_iff_exists.mp (split_concat_isSome q a)
  unfold check_existing_query CandidateAnswer.toLookup
  dsimp only
  rw [hresp]
  by_cases hd : d < mkRat 1 4
  · rw [if_pos hd]
    dsimp only
    by_cases hm : strTruthy module = true
    · rw [if_pos hm]
      cases tag with
      | none => simp [hd, strTruthy]
      | some sm =>
          dsimp only
          by_cases he : sm.isEmpty
          · simp [he, hd, strTruthy]
          · rw [if_neg he]
            cases module with
            | none => simp [strTruthy] at hm
            | some m =>
                simp only [strTruthy, Bool.not_eq_true'] at hm
                by_cases hsm : sm = m
                · simp [hsm, hd, strTruthy, he]
                · simp [hsm, hd, strTruthy, he, hm]
    · have hm' : strTruthy module = false := by
        revert hm
        cases strTruthy module <;> simp
      rw [if_neg hm]
      simp [hd, hm']
  · rw [if_neg hd]
    simp [hd]

/-- On a dedup miss, the handler replies synchronously from the database
exactly when `check_existing_query` accepted the stored candidate. -/
theorem chat_dbhit_iff (env : ChatEnv) (username : String) (req : QueryRequest)
    (s : SysState)
    (hmiss : dfind s.active_requests
        (generate_request_hash env.md5hex username req.query req.module) = none) :
    answeredFromDatabase (chat_with_bot env username req s).outcome =
      (check_existing_query env.dbLookup req.module).isSome := by
  dsimp only [chat_with_bot]
  rw [hmiss]
  cases hc : check_existing_query env.dbLookup req.module with
  | some existing => simp [answeredFromDatabase]
  | none =>
      repeat' split
      all_goals simp_all [answeredFromDatabase]

/-! ### Decimal rendering facts

Injectivity of the embedded decimal printers, and the fact that the only
underscores of a task id are its two separators.  These support the
analysis of task-id collisions. -/

theorem natDigitsAux_fuel (fuel : ℕ) :
    ∀ (fuel' n : ℕ), n ≤ fuel → n ≤ fuel' →
      natDigitsAux fuel n = natDigitsAux fuel' n := by
  induction fuel with
  | zero =>
      intro fuel' n h h'
      have hn : n = 0 := by omega
      subst hn
      cases fuel' <;> simp [natDigitsAux]
  | succ f ih =>
      intro fuel' n h h'
      by_cases hn : n = 0
      · subst hn
        cases fuel' <;> simp [natDigitsAux]
      · cases fuel' with
        | zero => omega
        | succ f' =>
            have hdiv : n / 10 < n := Nat.div_lt_self (Nat.pos_of_ne_zero hn) (by norm_num)
            simp only [natDigitsAux, if_neg hn]
            exact congrArg (fun l => l ++ [Nat.digitChar (n % 10)])
              (ih f' (n / 10) (by omega) (by omega))

theorem natDigs_peel (n : ℕ) (h : n ≠ 0) :
    natDigs n = natDigs (n / 10) ++ [Nat.digitChar (n % 10)] := by
  obtain ⟨m, rfl⟩ : ∃ m, n = m + 1 := ⟨n - 1, by omega⟩
  have hdiv : (m + 1) / 10 < m + 1 := Nat.div_lt_self (by omega) (by norm_num)
  show natDigitsAux (m + 1) (m + 1) = _
  simp only [natDigitsAux, if_neg h]
  exact congrArg (fun l => l ++ [Nat.digitChar ((m + 1) % 10)])
    (natDigitsAux_fuel m ((m + 1) / 10) ((m + 1) / 10) (by omega) (by omega))

theorem natDigs_eq_nil_iff (n : ℕ) : natDigs n = [] ↔ n = 0 := by
  constructor
  · intro h
    by_contra hn
    rw [natDigs_peel n hn] at h
    simp at h
  · rintro rfl
    rfl

theorem natDigs_mem_digit (n : ℕ) :
    ∀ c ∈ natDigs n, ∃ d, d < 10 ∧ c = Nat.digitChar d := by
  induction n using Nat.strong_induction_on with
  | _ n ih =>
      by_cases hn : n = 0
      · subst hn
        intro c hc
        simp [natDigs, natDigitsAux] at hc
      · rw [natDigs_peel n hn]
        intro c hc
        rcases List.mem_append.mp hc with h1 | h2
        · exact ih (n / 10) (Nat.div_lt_self (Nat.pos_of_ne_zero hn) (by norm_num)) c h1
        · have hc2 : c = Nat.digitChar (n % 10) := by simpa using h2
          exact ⟨n % 10, Nat.mod_lt _ (by norm_num), hc2⟩

theorem digitChar_inj : ∀ d < 10, ∀ e < 10,
    Nat.digitChar d = Nat.digitChar e → d = e := by decide

theorem digitChar_plain : ∀ d < 10,
    Nat.digitChar d ≠ '_' ∧ Nat.digitChar d ≠ '-' := by decide

theorem append_singleton_inj {α : Type} {l1 l2 : List α} {x y : α}
    (h : l1 ++ [x] = l2 ++ [y]) : l1 = l2 ∧ x = y := by
  have hlen : ([x] : List α).length = ([y] : List α).length := rfl
  obtain ⟨h1, h2⟩ := List.append_inj' h hlen
  exact ⟨h1, by simpa using h2⟩

theorem natDigs_inj (a : ℕ) : ∀ b, natDigs a = natDigs b → a = b := by
  induction a using Nat.strong_induction_on with
  | _ a ih =>
      intro b h
      by_cases ha : a = 0
      · subst ha
        by_contra hb
        rw [natDigs_peel b (by omega)] at h
        simp [natDigs, natDigitsAux] at h
      · by_cases hb : b = 0
        · subst hb
          exact absurd ((natDigs_eq_nil_iff a).mp h) ha
        · rw [natDigs_peel a ha, natDigs_peel b hb] at h
          obtain ⟨h1, h2⟩ := append_singleton_inj h
          have hdiv : a / 10 < a := Nat.div_lt_self (Nat.pos_of_ne_zero ha) (by norm_num)
          have h10 : a / 10 = b / 10 := ih (a / 10) hdiv (b / 10) h1
          have hmod : a % 10 = b % 10 :=
            digitChar_inj (a % 10) (Nat.mod_lt _ (by norm_num)) (b % 10)
              (Nat.mod_lt _ (by norm_num)) h2
          omega

theorem natToStr_chars (n : ℕ) :
    ∀ c ∈ (natToStr n).data, c ≠ '_' ∧ c ≠ '-' := by
  unfold natToStr
  by_cases hn : n = 0
  · rw [if_pos hn]
    intro c hc
    have : c = '0' := by simpa using hc
    subst this
    exact ⟨by decide, by decide⟩
  · rw [if_neg hn]
    intro c hc
    obtain ⟨d, hd, rfl⟩ := natDigs_mem_digit n c hc
    exact digitChar_plain d hd

theorem natToStr_ne_nil (n : ℕ) : (natToStr n).data ≠ [] := by
  unfold natToStr
  by_cases hn : n = 0
  · rw [if_pos hn]
    decide
  · rw [if_neg hn]
    simpa using (natDigs_eq_nil_iff n).not.mpr hn

theorem natToStr_inj (a b : ℕ) (h : natToStr a = natToStr b) : a = b := by
  have hdata : (natToStr a).data = (natToStr b).data := congrArg String.data h
  unfold natToStr at hdata
  by_cases ha : a = 0 <;> by_cases hb : b = 0
  · omega
  · exfalso
    rw [if_pos ha, if_neg hb, natDigs_peel b hb] at hdata
    have h0 : ([] : List Char) ++ ['0'] = natDigs (b / 10) ++ [Nat.digitChar (b % 10)] := by
      simpa using hdata
    obtain ⟨h1, h2⟩ := append_singleton_inj h0
    have hb10 : b / 10 = 0 := (natDigs_eq_nil_iff _).mp h1.symm
    have hbm : b % 10 = 0 :=
      (digitChar_inj (b % 10) (Nat.mod_lt _ (by norm_num)) 0 (by norm_num) h2.symm)
    omega
  · exfalso
    rw [if_neg ha, if_pos hb, natDigs_peel a ha] at hdata
    have h0 : ([] : List Char) ++ ['0'] = natDigs (a / 10) ++ [Nat.digitChar (a % 10)] := by
      simpa using hdata.symm
    obtain ⟨h1, h2⟩ := append_singleton_inj h0
    have ha10 : a / 10 = 0 := (natDigs_eq_nil_iff _).mp h1.symm
    have ham : a % 10 = 0 :=
      (digitChar_inj (a % 10) (Nat.mod_lt _ (by norm_num)) 0 (by norm_num) h2.symm)
    omega
  · rw [if_neg ha, if_neg hb] at hdata
    exact natDigs_inj a b hdata

theorem intToStr_chars (i : ℤ) :
    ∀ c ∈ (intToStr i).data, c ≠ '_' := by
  unfold intToStr
  by_cases hi : i < 0
  · rw [if_pos hi]
    intro c hc
    rw [String.data_append] at hc
    rcases List.mem_append.mp hc with h1 | h2
    · have : c = '-' := by simpa using h1
      subst this
      decide
    · exact (natToStr_chars _ c h2).1
  · rw [if_neg hi]
    intro c hc
    exact (natToStr_chars _ c hc).1

theorem intToStr_inj (i j : ℤ) (h : intToStr i = intToStr j) : i = j := by
  have hdata : (intToStr i).data = (intToStr j).data := congrArg String.data h
  unfold intToStr at hdata
  by_cases hi : i < 0 <;> by_cases hj : j < 0
  · rw [if_pos hi, if_pos hj, String.data_append, String.data_append] at hdata
    have htl : (natToStr i.natAbs).data = (natToStr j.natAbs).data := by
      simpa using hdata
    have := natToStr_inj _ _ (String.ext htl)
    omega
  · exfalso
    rw [if_pos hi, if_neg hj, String.data_append] at hdata
    cases hcase : (natToStr j.natAbs).data with
    | nil => exact natToStr_ne_nil _ hcase
    | cons c l =>
        rw [hcase] at hdata
        injection hdata with hc htl
        exact (natToStr_chars j.natAbs c (by rw [hcase]; exact List.mem_cons_self _ _)).2 hc.symm
  · exfalso
    rw [if_neg hi, if_pos hj, String.data_append] at hdata
    cases hcase : (natToStr i.natAbs).data with
    | nil => exact natToStr_ne_nil _ hcase
    | cons c l =>
        rw [hcase] at hdata
        injection hdata with hc htl
        exact (natToStr_chars i.natAbs c (by rw [hcase]; exact List.mem_cons_self _ _)).2 hc
  · rw [if_neg hi, if_neg hj] at hdata
    have := natToStr_inj _ _ (String.ext hdata)
    omega

theorem sep_split {l1 l2 r1 r2 : List Char}
    (h1 : ∀ c ∈ l1, c ≠ '_') (h2 : ∀ c ∈ l2, c ≠ '_')
    (h : l1 ++ '_' :: r1 = l2 ++ '_' :: r2) : l1 = l2 ∧ r1 = r2 := by
  induction l1 generalizing l2 with
  | nil =>
      cases l2 with
      | nil => simpa using h
      | cons c t =>
          exfalso
          have hc : '_' = c := by
            have := congrArg (fun l => List.head? l) h
            simpa using this
          exact h2 c (List.mem_cons_self _ _) hc.symm
  | cons c t ih =>
      cases l2 with
      | nil =>
          exfalso
          have hc : c = '_' := by
            have := congrArg (fun l => List.head? l) h
            simpa using this
          exact h1 c (List.mem_cons_self _ _) hc
      | cons c' t' =>
          have hc : c = c' := by
            have := congrArg (fun l => List.head? l) h
            simpa using this
          have ht : t ++ '_' :: r1 = t' ++ '_' :: r2 := by
            have := congrArg List.tail h
            simpa using this
          obtain ⟨ht1, ht2⟩ :=
            ih (fun x hx => h1 x (List.mem_cons_of_mem _ hx))
              (fun x hx => h2 x (List.mem_cons_of_mem _ hx)) ht
          exact ⟨by rw [hc, ht1], ht2⟩

/-- Task-id collision analysis: two task ids coincide exactly when both the
millisecond timestamp and the Python hash of the fingerprint coincide. -/
theorem task_id_for_inj (pyHash pyHash' : String → ℤ) (t t' : ℕ) (h h' : String)
    (heq : task_id_for pyHash t h = task_id_for pyHash' t' h') :
    t = t' ∧ pyHash h = pyHash' h' := by
  have hdata := congrArg String.data heq
  unfold task_id_for at hdata
  rw [String.data_append, String.data_append, String.data_append,
      String.data_append, String.data_append, String.data_append] at hdata
  have hpre : "task_".data = ['t', 'a', 's', 'k', '_'] := rfl
  have hsep : "_".data = ['_'] := rfl
  rw [hpre, hsep] at hdata
  simp only [List.append_assoc, List.cons_append, List.nil_append] at hdata
  have hmain : (natToStr t).data ++ '_' :: (intToStr (pyHash h)).data =
      (natToStr t').data ++ '_' :: (intToStr (pyHash' h')).data := by
    simpa using hdata
  obtain ⟨hA, hB⟩ := sep_split
    (fun c hc => (natToStr_chars t c hc).1)
    (fun c hc => (natToStr_chars t' c hc).1) hmain
  exact ⟨natToStr_inj t t' (String.ext hA), intToStr_inj _ _ (String.ext hB)⟩

/-! ### A pending record used to exercise the dead still-processing branch -/

/-- A registry holding a (never actually produced) pending record. -/
def regPending : List (String × TaskRecord) :=
  [("p1", ⟨"will be filled", none, "processing", false, 0⟩)]

/-! ### Claim C1 -/

/-- Claim C1, counterexample: a Submit that launched background generation
(`scheduled` is the singleton task, so the task is pending) creates no
registry record at all — `background_task_results` is unchanged — and a
Poll on the returned task id before the worker runs answers NotFound.
This refutes the claim that NotFound is never returned for a pending
task. -/
theorem c1_counterexample :
    firstRun.scheduled = [⟨"task_1000_0", "q", [], none, "u"⟩] ∧
    firstRun.state.background_task_results = [] ∧
    (get_task_status "task_1000_0" 1 firstRun.state).1 = PollResult.notFound := by
  decide

/-- Claim C1 (amended): `Get` answers "still processing" only for a
registry record with `completed = false`; but Submit never creates a
registry record (the worker writes it already completed), so polling a
scheduled-but-unfinished task id answers NotFound exactly like an unknown
id. -/
theorem c1_poll_amended :
    (∀ (tid : String) (now : ℤ) (s : SysState) (rec : TaskRecord),
        dfind s.background_task_results tid = some rec → rec.completed = false →
        (get_task_status tid now s).1 =
          PollResult.ok ⟨"Still processing your request...", none,
            some "processing", some tid⟩) ∧
    (∀ (env : ChatEnv) (username : String) (req : QueryRequest) (s : SysState)
        (ts : TaskSpec),
        ts ∈ (chat_with_bot env username req s).scheduled →
        dfind s.background_task_results ts.task_id = none →
        (get_task_status ts.task_id env.now (chat_with_bot env username req s).state).1 =
          PollResult.notFound) := by
  constructor
  · intro tid now s rec hrec hpending
    simp [get_task_status, hrec, hpending]
  · intro env username req s ts hts hnone
    have hframe := chat_registry_frame env username req s
    simp [get_task_status, hframe, hnone]

/-- Claim C1 witness: both parts of the amended statement applied at
concrete inputs. -/
theorem c1_poll_amended_witness :
    (get_task_status "p1" 0 ⟨[], regPending⟩).1 =
      PollResult.ok ⟨"Still processing your request...", none,
        some "processing", some "p1"⟩ ∧
    (get_task_status "task_1000_0" 1 firstRun.state).1 = PollResult.notFound := by
  constructor
  · exact c1_poll_amended.1 "p1" 0 ⟨[], regPending⟩
      ⟨"will be filled", none, "processing", false, 0⟩ rfl rfl
  · exact c1_poll_amended.2 envA "u" ⟨"q", none⟩ ⟨[], []⟩
      ⟨"task_1000_0", "q", [], none, "u"⟩ (by decide) rfl

/-! ### Claim C2 -/

/-- Claim C2, counterexample: `Get` on a completed record 301s after its
timestamp deletes the record but still returns its payload on that very
read — it does not answer NotFound, so the expired payload is returned to
the poller once. -/
theorem c2_counterexample :
    (get_task_status "t1" 301 ⟨[], regB⟩).1 =
      PollResult.ok ⟨"stored answer", some "1", some "deepseek", none⟩ ∧
    (get_task_status "t1" 301 ⟨[], regB⟩).1 ≠ PollResult.notFound ∧
    (get_task_status "t1" 301 ⟨[], regB⟩).2.background_task_results = [] := by
  decide

/-- Claim C2 (amended): `Get` on a completed record older than 300s evicts
it as a side effect but returns its payload on that same read; only
subsequent polls answer NotFound. -/
theorem c2_expired_get_amended (tid : String) (now : ℤ) (s : SysState)
    (rec : TaskRecord)
    (hrec : dfind s.background_task_results tid = some rec)
    (hcom : rec.completed = true) (hexp : now - rec.timestamp > 300) :
    (get_task_status tid now s).1 =
      PollResult.ok ⟨rec.response, rec.module, some rec.source, none⟩ ∧
    dfind (get_task_status tid now s).2.background_task_results tid = none ∧
    (get_task_status tid now (get_task_status tid now s).2).1 =
      PollResult.notFound := by
  have hstep : get_task_status tid now s =
      (PollResult.ok ⟨rec.response, rec.module, some rec.source, none⟩,
        { s with background_task_results := derase s.background_task_results tid }) := by
    simp [get_task_status, hrec, hcom, hexp]
  refine ⟨by rw [hstep], ?_, ?_⟩
  · rw [hstep]
    exact dfind_derase_self _ _
  · rw [hstep]
    simp [get_task_status, dfind_derase_self]

/-- Claim C2 witness: the amended statement applied to a record created at
time 0 and read at time 301. -/
theorem c2_expired_get_amended_witness :
    (get_task_status "t1" 301 ⟨[], regB⟩).1 =
      PollResult.ok ⟨"stored answer", some "1", some "deepseek", none⟩ ∧
    dfind (get_task_status "t1" 301 ⟨[], regB⟩).2.background_task_results "t1" = none ∧
    (get_task_status "t1" 301 (get_task_status "t1" 301 ⟨[], regB⟩).2).1 =
      PollResult.notFound :=
  c2_expired_get_amended "t1" 301 ⟨[], regB⟩ recB rfl rfl (by decide)

/-! ### Claim C3 -/

/-- Claim C3: on a submission that reaches the AnswerStore lookup (a dedup
miss), the stored candidate is accepted — Submit answers synchronously
with source "database" — if and only if its distance is strictly below
0.25 (`mkRat 1 4`) and the module filter passes: the request module is
unset (Python-falsy), or the candidate's stored module is unset, or the
two are equal.  In particular a candidate at distance 0.5 is never
accepted. -/
theorem c3_acceptance_rule (md5hex : String → String) (pyHash : String → ℤ)
    (now : ℤ) (nowMillis : ℕ) (ctxLookup : ChromaLookup) (username : String)
    (c : CandidateAnswer) (req : QueryRequest) (s : SysState)
    (hmiss : dfind s.active_requests
        (generate_request_hash md5hex username req.query req.module) = none) :
    answeredFromDatabase (chat_with_bot
        ⟨md5hex, pyHash, now, nowMillis, c.toLookup, ctxLookup⟩ username req s).outcome
        = true ↔
      (c.distanceScore < mkRat 1 4 ∧
        (strTruthy req.module = false ∨ strTruthy c.moduleTag = false ∨
          c.moduleTag = req.module)) := by
  rw [chat_dbhit_iff _ _ _ _ hmiss]
  exact candidate_accept_iff c req.module

/-- Claim C3 witness: a matching candidate at distance 1/10 is answered
from the database, and the same candidate at distance 1/2 is not. -/
theorem c3_acceptance_rule_witness :
    answeredFromDatabase (chat_with_bot
        ⟨fun st => st, fun _ => 0, 1, 1000, nearCandidate.toLookup, .ok none⟩
        "u" ⟨"q2", some "1"⟩ ⟨[], []⟩).outcome = true ∧
    answeredFromDatabase (chat_with_bot
        ⟨fun st => st, fun _ => 0, 1, 1000, farCandidate.toLookup, .ok none⟩
        "u" ⟨"q2", some "1"⟩ ⟨[], []⟩).outcome = false := by
  constructor
  · exact (c3_acceptance_rule (fun st => st) (fun _ => 0) 1 1000 (.ok none) "u"
      nearCandidate ⟨"q2", some "1"⟩ ⟨[], []⟩ rfl).mpr (by decide)
  · have h := c3_acceptance_rule (fun st => st) (fun _ => 0) 1 1000 (.ok none) "u"
      farCandidate ⟨"q2", some "1"⟩ ⟨[], []⟩ rfl
    have hnot : ¬ (answeredFromDatabase (chat_with_bot
        ⟨fun st => st, fun _ => 0, 1, 1000, farCandidate.toLookup, .ok none⟩
        "u" ⟨"q2", some "1"⟩ ⟨[], []⟩).outcome = true) :=
      fun hb => absurd (h.mp hb).1 (by decide)
    simpa using hnot

/-! ### Claim C4 -/

/-- Claim C4, counterexample: the pre-hash request strings collide for
distinct triples in two ways that owe nothing to the hash space — the
module normalization (`(u, q, module absent)` versus `(u, q, module
"none")`) and the unescaped `:` separator shifting field boundaries
(`("u:x", "y", no module)` versus `("u", "x:y", no module)`) — so the
fingerprints coincide under every digest function. -/
theorem c4_counterexample :
    (some "none" ≠ (none : Option String)) ∧
    request_string "u" "q" none = request_string "u" "q" (some "none") ∧
    generate_request_hash (fun st => st) "u" "q" none =
      generate_request_hash (fun st => st) "u" "q" (some "none") ∧
    ("u:x" ≠ "u" ∧ "y" ≠ "x:y") ∧
    request_string "u:x" "y" none = request_string "u" "x:y" none ∧
    generate_request_hash (fun st => st) "u:x" "y" none =
      generate_request_hash (fun st => st) "u" "x:y" none := by
  decide

/-- Claim C4 (amended): the fingerprint is deterministic and factors
through the pre-hash string `username:query:(module or 'none')`: equal
pre-hash strings give equal fingerprints under every digest, and
conversely triples whose fingerprints agree under every digest have equal
pre-hash strings — distinct pre-hash strings can only collide through the
digest itself.  Distinct triples do share a pre-hash string: via the
module normalization (module absent, empty, and "none" share a bucket)
and via the `:` separator shifting field boundaries (subject `a:b` with
query `c` collides with subject `a` and query `b:c`). -/
theorem c4_fingerprint_amended :
    (∀ (md5hex : String → String) (u q u' q' : String) (m m' : Option String),
        request_string u q m = request_string u' q' m' →
        generate_request_hash md5hex u q m = generate_request_hash md5hex u' q' m') ∧
    (∀ (u q u' q' : String) (m m' : Option String),
        (∀ md5hex : String → String,
            generate_request_hash md5hex u q m = generate_request_hash md5hex u' q' m') →
        request_string u q m = request_string u' q' m') ∧
    (∀ (md5hex : String → String) (u q : String),
        generate_request_hash md5hex u q none =
          generate_request_hash md5hex u q (some "none")) ∧
    (∀ (md5hex : String → String) (a b c : String),
        generate_request_hash md5hex (a ++ ":" ++ b) c none =
          generate_request_hash md5hex a (b ++ ":" ++ c) none) := by
  refine ⟨?_, ?_, ?_, ?_⟩
  · intro md5hex u q u' q' m m' h
    exact congrArg md5hex h
  · intro u q u' q' m m' h
    exact h (fun st => st)
  · intro md5hex u q
    rfl
  · intro md5hex a b c
    refine congrArg md5hex ?_
    apply String.ext
    simp [request_string, moduleOrNone, String.data_append]

/-- Claim C4 witness: the hypothesis-bearing parts applied at concrete
inputs — the empty module versus the literal module "none", and the
separator-shifted pair. -/
theorem c4_fingerprint_amended_witness :
    generate_request_hash (fun st => st) "u" "q" (some "") =
      generate_request_hash (fun st => st) "u" "q" (some "none") ∧
    request_string "u:x" "y" none = request_string "u" "x:y" none := by
  constructor
  · exact c4_fingerprint_amended.1 (fun st => st) "u" "q" "u" "q" (some "")
      (some "none") (by decide)
  · exact c4_fingerprint_amended.2.1 "u:x" "y" "u" "x:y" none none
      (fun md5hex => congrArg md5hex (by decide))

/-! ### Claim C5 -/

/-- Claim C5, counterexample: on the success path the worker's persistence
call strictly precedes the completion write in the execution trace, so the
caller-visible completion is observable strictly later than the
persistence call — marking the task complete is blocked behind persisting
the pair. -/
theorem c5_counterexample :
    runC5.events =
      [WorkerEvent.generated, WorkerEvent.persisted, WorkerEvent.completedWrite] ∧
    eventPos WorkerEvent.persisted runC5.events <
      eventPos WorkerEvent.completedWrite runC5.events := by
  decide

/-- Claim C5 (amended): the worker awaits the persistence of the (query,
answer) pair and only then marks the task completed: on every successful
generation (returned success or timeout fallback) the trace is
generation, then persistence, then the completion write — completion is
observable only after the persistence call returns, and never before
generation has produced a final answer. -/
theorem c5_ordering_amended (task_id query : String) (module : Option String)
    (username : String) (text : String) (now : ℤ) (s : SysState) :
    (generate_ai_response_task task_id query module username
        (.returns true text) (.ok ()) now s).events =
      [WorkerEvent.generated, WorkerEvent.persisted, WorkerEvent.completedWrite] ∧
    (generate_ai_response_task task_id query module username
        .timeout (.ok ()) now s).events =
      [WorkerEvent.generated, WorkerEvent.persisted, WorkerEvent.completedWrite] ∧
    eventPos WorkerEvent.generated
        [WorkerEvent.generated, WorkerEvent.persisted, WorkerEvent.completedWrite] <
      eventPos WorkerEvent.completedWrite
        [WorkerEvent.generated, WorkerEvent.persisted, WorkerEvent.completedWrite] ∧
    eventPos WorkerEvent.persisted
        [WorkerEvent.generated, WorkerEvent.persisted, WorkerEvent.completedWrite] <
      eventPos WorkerEvent.completedWrite
        [WorkerEvent.generated, WorkerEvent.persisted, WorkerEvent.completedWrite] :=
  ⟨rfl, rfl, by decide, by decide⟩

/-! ### Claim C6 -/

/-- Claim C6, counterexample: a timed-out generation whose awaited
persistence of the fallback raises does not write a fallback-success
record: the worker's exception handler writes a completed record with
source "error" whose text is the exception message, not the synthesized
fallback — so not every timeout run is marked as a success with the
fallback text. -/
theorem c6_counterexample :
    dfind (generate_ai_response_task "t1" "q" none "u" .timeout
        (.error "db down") 5 ⟨[], []⟩).state.background_task_results "t1" =
      some ⟨"Error processing request: db down", none, "error", true, 5⟩ ∧
    "Error processing request: db down" ≠ fallback_text "q" ∧
    "error" ≠ "deepseek" := by
  refine ⟨?_, ?_, ?_⟩ <;> decide

/-- Claim C6 (amended): on a generation timeout the worker synthesizes the
polite fallback and treats it as a success: when the awaited persistence
of the fallback returns, it writes a completed record with the fallback
text and source "deepseek"; when that persistence raises, it instead
writes a completed error record.  Either way the task record is completed
and the poller receives an answer — no timeout error is propagated. -/
theorem c6_timeout_amended (task_id query : String) (module : Option String)
    (username : String) (e : String) (now : ℤ) (s : SysState) :
    dfind (generate_ai_response_task task_id query module username
        .timeout (.ok ()) now s).state.background_task_results task_id =
      some ⟨fallback_text query, module, "deepseek", true, now⟩ ∧
    (get_task_status task_id now (generate_ai_response_task task_id query module
        username .timeout (.ok ()) now s).state).1 =
      PollResult.ok ⟨fallback_text query, module, some "deepseek", none⟩ ∧
    dfind (generate_ai_response_task task_id query module username
        .timeout (.error e) now s).state.background_task_results task_id =
      some ⟨"Error processing request: " ++ e, module, "error", true, now⟩ ∧
    (get_task_status task_id now (generate_ai_response_task task_id query module
        username .timeout (.error e) now s).state).1 =
      PollResult.ok ⟨"Error processing request: " ++ e, module, some "error", none⟩ := by
  have h1 : (generate_ai_response_task task_id query module username
      .timeout (.ok ()) now s).state.background_task_results =
      dinsert s.background_task_results task_id
        ⟨fallback_text query, module, "deepseek", true, now⟩ := rfl
  have h2 : (generate_ai_response_task task_id query module username
      .timeout (.error e) now s).state.background_task_results =
      dinsert s.background_task_results task_id
        ⟨"Error processing request: " ++ e, module, "error", true, now⟩ := rfl
  have hexp : ¬ (now - now > 300) := by omega
  refine ⟨?_, ?_, ?_, ?_⟩
  · rw [h1]
    exact dfind_dinsert_self _ _ _
  · simp [get_task_status, h1, dfind_dinsert_self, hexp]
  · rw [h2]
    exact dfind_dinsert_self _ _ _
  · simp [get_task_status, h2, dfind_dinsert_self, hexp]

/-! ### Claim C7 -/

/-- Claim C7, counterexample: a submission whose query is the empty string
passes validation, flows through fingerprinting, and schedules background
generation — it is not rejected synchronously. -/
theorem c7_counterexample :
    validate_query_request (some "") none = Except.ok ⟨"", none⟩ ∧
    (chat_with_bot envA "u" ⟨"", none⟩ ⟨[], []⟩).scheduled =
      [⟨"task_1000_0", "", [], none, "u"⟩] ∧
    answeredFromDatabase (chat_with_bot envA "u" ⟨"", none⟩ ⟨[], []⟩).outcome =
      false := by
  refine ⟨rfl, ?_, ?_⟩ <;> decide

/-- Claim C7 (amended): a submission missing the `query` field is rejected
by request validation with a 422 before the handler (and hence before any
fingerprinting or scheduling) runs; but any present string — including the
empty string — passes validation, and an empty query proceeds through
fingerprinting and schedules background work. -/
theorem c7_validation_amended :
    (∀ m : Option String, validate_query_request none m = Except.error 422) ∧
    (∀ (q : String) (m : Option String),
        validate_query_request (some q) m = Except.ok ⟨q, m⟩) ∧
    (chat_with_bot envA "u" ⟨"", none⟩ ⟨[], []⟩).scheduled ≠ [] :=
  ⟨fun _ => rfl, fun _ _ => rfl, by decide⟩

/-! ### Claim C8 -/

/-- Claim C8, counterexample: two distinct submissions — the second runs on
the state the first one left — with the same user, query and module inside
the same wall-clock millisecond allocate task records under the identical
task id, so task ids are not globally unique. -/
theorem c8_counterexample :
    firstRun.scheduled.map TaskSpec.task_id = ["task_1000_0"] ∧
    secondRun.scheduled.map TaskSpec.task_id = ["task_1000_0"] := by
  decide

/-- Claim C8 (amended): a task id is determined by, and determines, the
pair (millisecond timestamp, Python hash of the fingerprint): ids of
submissions differing in either component differ, while submissions
sharing both components — e.g. identical requests in the same millisecond
— collide. -/
theorem c8_taskid_amended :
    (∀ (pyHash : String → ℤ) (t t' : ℕ) (h h' : String),
        task_id_for pyHash t h = task_id_for pyHash t' h' →
        t = t' ∧ pyHash h = pyHash h') ∧
    (∀ (pyHash : String → ℤ) (t : ℕ) (h h' : String),
        pyHash h = pyHash h' → task_id_for pyHash t h = task_id_for pyHash t h') := by
  constructor
  · intro pyHash t t' h h' heq
    exact task_id_for_inj pyHash pyHash t t' h h' heq
  · intro pyHash t h h' hh
    unfold task_id_for
    rw [hh]

/-- Claim C8 witness: both parts applied at concrete inputs. -/
theorem c8_taskid_amended_witness :
    (5 = 5 ∧ (0 : ℤ) = 0) ∧
    task_id_for (fun _ => 0) 7 "a" = task_id_for (fun _ => 0) 7 "b" := by
  constructor
  · exact c8_taskid_amended.1 (fun _ => 0) 5 5 "a" "b" rfl
  · exact c8_taskid_amended.2 (fun _ => 0) 7 "a" "b" rfl

/-! ### Claim C9 -/

/-- Claim C9: every record ever stored in `background_task_results` is
already completed: the handler never writes the registry, all worker exit
paths (success, generator-reported failure, raised exception, failed
persistence) insert a record with `completed = true`, and the polling
endpoint only deletes — so the registry never holds a pending record. -/
theorem c9_registry_always_completed :
    (∀ (env : ChatEnv) (username : String) (req : QueryRequest) (s : SysState),
        (chat_with_bot env username req s).state.background_task_results =
          s.background_task_results) ∧
    (∀ (task_id query : String) (module : Option String) (username : String)
        (outcome : GenOutcome) (persist : Except String Unit) (now : ℤ)
        (s : SysState),
        allCompleted s.background_task_results →
        allCompleted (generate_ai_response_task task_id query module username
          outcome persist now s).state.background_task_results) ∧
    (∀ (task_id query : String) (module : Option String) (username : String)
        (outcome : GenOutcome) (persist : Except String Unit) (now : ℤ)
        (s : SysState) (rec : TaskRecord),
        dfind (generate_ai_response_task task_id query module username
          outcome persist now s).state.background_task_results task_id = some rec →
        rec.completed = true) ∧
    (∀ (tid : String) (now : ℤ) (s : SysState),
        allCompleted s.background_task_results →
        allCompleted (get_task_status tid now s).2.background_task_results) := by
  refine ⟨?_, ?_, ?_, ?_⟩
  · intro env username req s
    exact chat_registry_frame env username req s
  · intro task_id query module username outcome persist now s hall
    obtain ⟨rec, hrec, hstate⟩ := worker_writes task_id query module username
      outcome persist now s
    rw [hstate]
    exact allCompleted_dinsert _ _ _ hall hrec
  · intro task_id query module username outcome persist now s rec hfind
    obtain ⟨rec', hrec', hstate⟩ := worker_writes task_id query module username
      outcome persist now s
    rw [hstate] at hfind
    rw [dfind_dinsert_self] at hfind
    cases hfind
    exact hrec'
  · intro tid now s hall
    unfold get_task_status
    cases hfind : dfind s.background_task_results tid with
    | none => exact hall
    | some result =>
        by_cases hcom : result.completed = true
        · by_cases hexp : now - result.timestamp > 300
          · simp only [hcom, if_true, if_pos hexp]
            exact allCompleted_derase _ _ hall
          · simp only [hcom, if_true, if_neg hexp]
            exact hall
        · simp only [hcom]
          exact hall

/-- Claim C9 witness: the hypothesis-bearing parts applied at concrete
states. -/
theorem c9_registry_always_completed_witness :
    allCompleted (generate_ai_response_task "t1" "q" none "u"
      (.raises "boom") (.ok ()) 5 ⟨[], []⟩).state.background_task_results ∧
    (dfind (generate_ai_response_task "t1" "q" none "u"
        (.raises "boom") (.ok ()) 5 ⟨[], []⟩).state.background_task_results "t1" =
      some ⟨"Error processing request: boom", none, "error", true, 5⟩) ∧
    (⟨"Error processing request: boom", none, "error", true, 5⟩ : TaskRecord).completed
      = true ∧
    allCompleted (get_task_status "t1" 301 ⟨[], regB⟩).2.background_task_results := by
  have hempty : allCompleted ([] : List (String × TaskRecord)) := by
    intro k rec h
    simp [dfind] at h
  have hregB : allCompleted regB := by
    intro k rec h
    unfold regB dfind at h
    by_cases hk : "t1" = k
    · rw [if_pos hk] at h
      cases h
      rfl
    · rw [if_neg hk] at h
      cases h
  refine ⟨?_, by decide, ?_, ?_⟩
  · exact c9_registry_always_completed.2.1 "t1" "q" none "u" (.raises "boom")
      (.ok ()) 5 ⟨[], []⟩ hempty
  · exact c9_registry_always_completed.2.2.1 "t1" "q" none "u" (.raises "boom")
      (.ok ()) 5 ⟨[], []⟩ ⟨"Error processing request: boom", none, "error", true, 5⟩
      (by decide)
  · exact c9_registry_always_completed.2.2.2 "t1" 301 ⟨[], regB⟩ hregB

/-! ### Claim C10 -/

/-- Claim C10, counterexample: a Submit run that ends on the
background-generation path (it scheduled a task) does not always leave
`active_requests` unchanged: when the dedup check finds this fingerprint's
completed entry expired, it deletes it before falling through, so the
cache shrinks on a background-path run. -/
theorem c10_counterexample :
    (chat_with_bot envB "u" ⟨"q", none⟩ ⟨activeB, []⟩).scheduled ≠ [] ∧
    (chat_with_bot envB "u" ⟨"q", none⟩ ⟨activeB, []⟩).state.active_requests = [] ∧
    activeB ≠ [] := by
  decide

/-- Claim C10 (amended): the background worker never touches
`active_requests`; a Submit run that scheduled background work leaves
`active_requests` unchanged except possibly for the lazy eviction of its
own fingerprint's expired entry during the dedup check; and no Submit run
ever changes `active_requests` at any key other than its own fingerprint —
so a generated answer never becomes a completed in-flight entry. -/
theorem c10_frame_amended :
    (∀ (task_id query : String) (module : Option String) (username : String)
        (outcome : GenOutcome) (persist : Except String Unit) (now : ℤ)
        (s : SysState),
        (generate_ai_response_task task_id query module username
          outcome persist now s).state.active_requests = s.active_requests) ∧
    (∀ (env : ChatEnv) (username : String) (req : QueryRequest) (s : SysState),
        (chat_with_bot env username req s).scheduled ≠ [] →
        ((chat_with_bot env username req s).state.active_requests =
            s.active_requests ∨
          (chat_with_bot env username req s).state.active_requests =
            derase s.active_requests
              (generate_request_hash env.md5hex username req.query req.module))) ∧
    (∀ (env : ChatEnv) (username : String) (req : QueryRequest) (s : SysState)
        (k : String),
        k ≠ generate_request_hash env.md5hex username req.query req.module →
        dfind (chat_with_bot env username req s).state.active_requests k =
          dfind s.active_requests k) := by
  refine ⟨?_, ?_, ?_⟩
  · intro task_id query module username outcome persist now s
    obtain ⟨rec, hrec, hstate⟩ := worker_writes task_id query module username
      outcome persist now s
    rw [hstate]
  · intro env username req s hsched
    rcases chat_sched_active env username req s with h | h | h
    · exact absurd h hsched
    · exact Or.inl h
    · exact Or.inr h
  · intro env username req s k hk
    exact chat_dfind_other env username req s k hk

/-- Claim C10 witness: the parts with hypotheses applied at concrete
inputs. -/
theorem c10_frame_amended_witness :
    ((chat_with_bot envB "u" ⟨"q", none⟩ ⟨activeB, []⟩).state.active_requests =
        activeB ∨
      (chat_with_bot envB "u" ⟨"q", none⟩ ⟨activeB, []⟩).state.active_requests =
        derase activeB (generate_request_hash envB.md5hex "u" "q" none)) ∧
    dfind (chat_with_bot envB "u" ⟨"q", none⟩ ⟨activeB, []⟩).state.active_requests
        "zzz" = dfind activeB "zzz" := by
  constructor
  · exact c10_frame_amended.2.1 envB "u" ⟨"q", none⟩ ⟨activeB, []⟩ (by decide)
  · exact c10_frame_amended.2.2 envB "u" ⟨"q", none⟩ ⟨activeB, []⟩ "zzz" (by decide)

end ChatBot
